import Mathlib

/-!
# Verification of the legal-analyser client and its reconstructed analysis engine

Part 1 embeds the frontend API client (`src/LegalAnalyser.js`): the `apiFetch`
wrapper, the `analyzeCase` request builder, and the state transitions of the
`useAnalyze` / `useGraph` React hooks.

Part 2 models the backend case-analysis engine.  That engine is listed in the
repository's setup guide (`main.py`) but its source is not present, so the
definitions there are modelled from the specification's component design
(Section Matcher, Context Aggregator, Action Planner, Outcome Synthesizer,
Reasoning Tracer).
-/

/-- A JSON value as produced by `JSON.parse` / consumed by `JSON.stringify`. -/
inductive Json where
  | null
  | bool (b : Bool)
  | num (n : Int)
  | str (s : String)
  | arr (elems : List Json)
  | obj (fields : List (String × Json))
deriving Repr

/-- JavaScript truthiness of a JSON value (`if (v)`); objects and arrays are
always truthy, `null`, `false`, `0` and `""` are falsy. -/
def jsTruthy : Json → Bool
  | .null => false
  | .bool b => b
  | .num n => n != 0
  | .str s => s != ""
  | .arr _ => true
  | .obj _ => true

/-- Property access `v[k]` on a parsed JSON value: defined only on objects
(later duplicate keys win, as in `JSON.parse`); on any non-object it is
`undefined`, i.e. `none`.  Access on `null` is handled by the caller, since in
JavaScript it throws instead of yielding `undefined`. -/
def Json.get (v : Json) (k : String) : Option Json :=
  match v with
  | .obj fields => fields.foldl (fun acc p => if p.1 == k then some p.2 else acc) none
  | _ => none

/-- The keys of a JSON object, in order (`none` on a non-object). -/
def Json.keys : Json → Option (List String)
  | .obj fields => some (fields.map (·.1))
  | _ => none

mutual
/-- JavaScript `String(v)` coercion applied by the `Error` constructor. -/
def Json.jsToString : Json → String
  | .null => "null"
  | .bool b => cond b "true" "false"
  | .num n => toString n
  | .str s => s
  | .arr xs => String.intercalate "," (jsArrStrings xs)
  | .obj _ => "[object Object]"

/-- `Array.prototype.join` stringifies elements, rendering `null` as `""`. -/
def jsArrStrings : List Json → List String
  | [] => []
  | .null :: rest => "" :: jsArrStrings rest
  | j :: rest => j.jsToString :: jsArrStrings rest
end

/-- An HTTP response as seen by `fetch`: status code, status text, and the
result of `res.json()` (`none` when the body is not valid JSON, in which case
`res.json()` rejects). -/
structure HttpResponse where
  status : Nat
  statusText : String
  jsonBody : Option Json
deriving Repr

/-- `res.ok`: status in the inclusive range 200-299. -/
def HttpResponse.ok (r : HttpResponse) : Bool :=
  200 ≤ r.status && r.status < 300

/-- The settled state of the promise returned by `apiFetch`. -/
inductive FetchResult where
  | resolved (value : Json)
  /-- `throw new Error(message)` on the non-ok path. -/
  | rejected (message : String)
  /-- a built-in JavaScript exception escaped (`SyntaxError` from `res.json()`
  on an ok response with an invalid body, `TypeError` from `err.detail` when
  the parsed error body is `null`). -/
  | jsException (ident : String)
deriving Repr

/-- `apiFetch` from `src/LegalAnalyser.js`, applied to the response the
`fetch` call produced: on `res.ok` it returns `res.json()`; otherwise it
parses the body (falling back to `{detail: res.statusText}` when parsing
fails) and throws `new Error(err.detail || "HTTP " + res.status)`. -/
def apiFetch (res : HttpResponse) : FetchResult :=
  if res.ok then
    match res.jsonBody with
    | some v => .resolved v
    | none => .jsException "SyntaxError"
  else
    let err : Json :=
      match res.jsonBody with
      | some v => v
      | none => .obj [("detail", .str res.statusText)]
    match err with
    | .null => .jsException "TypeError"
    | e =>
      match e.get "detail" with
      | some d =>
        if jsTruthy d then .rejected d.jsToString
        else .rejected ("HTTP " ++ toString res.status)
      | none => .rejected ("HTTP " ++ toString res.status)

/-- A JavaScript argument position: explicitly `undefined` (also the value of
an omitted argument), `null`, or a string. -/
inductive JsArg where
  | undef
  | null
  | str (s : String)
deriving Repr

/-- The request an API function hands to `fetch`. -/
structure Request where
  path : String
  method : String
  body : Option Json
deriving Repr

/-- `JSON.stringify` on an object literal: fields whose value is `undefined`
are dropped, `null` and strings are serialized. -/
def stringifyFields (l : List (String × JsArg)) : List (String × Json) :=
  l.filterMap fun p =>
    match p.2 with
    | .undef => none
    | .null => some (p.1, .null)
    | .str s => some (p.1, .str s)

/-- `analyzeCase(caseDescription, state = "All India", category = null)`:
builds the `POST /analyze` request with body
`JSON.stringify({case_description, state, category})`.  A default parameter
fires exactly when the argument is `undefined`. -/
def analyzeCase (caseDescription : String) (state : JsArg := .undef)
    (category : JsArg := .undef) : Request :=
  let st := match state with
    | .undef => JsArg.str "All India"
    | v => v
  let cat := match category with
    | .undef => JsArg.null
    | v => v
  { path := "/analyze"
    method := "POST"
    body := some (.obj (stringifyFields
      [("case_description", .str caseDescription), ("state", st), ("category", cat)])) }

/-- The local state of the `useAnalyze` hook: `data`, `loading`, `error`. -/
structure AnalyzeState where
  data : Option Json
  loading : Bool
  error : Option String
deriving Repr

/-- The local state of the `useGraph` hook: `graphData`, `loading`, `error`. -/
structure GraphState where
  graphData : Option Json
  loading : Bool
  error : Option String
deriving Repr

/-- How the awaited request settles: resolution with a result, or rejection
with an error whose `.message` is the given string. -/
inductive Outcome where
  | success (result : Json)
  | failure (message : String)
deriving Repr

/-- `useAnalyze`'s `analyze`, part before `await`: `setLoading(true)` then
`setError(null)`. -/
def analyzeStart (s : AnalyzeState) : AnalyzeState :=
  { s with loading := true, error := none }

/-- `useAnalyze`'s `analyze`, part after `await`: on resolution `setData` and
return the result; on rejection `setError(e.message)` and return `null`; in
both cases `finally` runs `setLoading(false)`. -/
def analyzeFinish (s : AnalyzeState) : Outcome → AnalyzeState × Option Json
  | .success r => ({ s with data := some r, loading := false }, some r)
  | .failure m => ({ s with error := some m, loading := false }, none)

/-- One complete call of `analyze`, given how the request settles: the final
hook state and the value `analyze` returns to its caller. -/
def analyzeRun (s : AnalyzeState) (o : Outcome) : AnalyzeState × Option Json :=
  analyzeFinish (analyzeStart s) o

/-- `useGraph`'s `fetchGraph`, part before `await`. -/
def fetchGraphStart (s : GraphState) : GraphState :=
  { s with loading := true, error := none }

/-- `useGraph`'s `fetchGraph`, part after `await`. -/
def fetchGraphFinish (s : GraphState) : Outcome → GraphState × Option Json
  | .success r => ({ s with graphData := some r, loading := false }, some r)
  | .failure m => ({ s with error := some m, loading := false }, none)

/-- One complete call of `fetchGraph`. -/
def fetchGraphRun (s : GraphState) (o : Outcome) : GraphState × Option Json :=
  fetchGraphFinish (fetchGraphStart s) o

/-- `useAnalyze`'s `reset`: clears `data` and `error`, leaves `loading`. -/
def analyzeReset (s : AnalyzeState) : AnalyzeState :=
  { s with data := none, error := none }

/-!
## Part 2 — the case-analysis engine, modelled from the spec

The backend (`main.py` in the setup guide) is absent from the repository, so
every definition below is modelled from the specification's words: §4.2
Section Matcher, §4.3 Context Aggregator, §4.4 Action Planner, §4.5 Outcome
Synthesizer, §4.6 Reasoning Tracer, §7 error taxonomy.  Probabilities and
scores are rationals.  Where the spec leaves constants open (scoring weights,
confidence normalization) explicit documented constants are chosen, as §9
instructs.
-/

/-- Clamp a rational to the interval [0,1]. -/
def clamp01 (x : ℚ) : ℚ := if x < 0 then 0 else if 1 < x then 1 else x

/-- Modelled from the spec: a `LegalSection` node, restricted to the fields
the matcher consults (jurisdictions, category, severity, section number). -/
structure LegalSection where
  sectionId : String
  sectionNumber : Nat
  title : String
  jurisdictions : List String
  category : String
  severityLevel : Nat
deriving Repr, DecidableEq

/-- Modelled from the spec: a `HAS_ACTION` edge together with the action node
fields the planner uses (`sequence` hint, `conditions`, cost range, risk). -/
structure ActionEdge where
  sectionId : String
  actionId : String
  actionName : String
  seqHint : Nat
  riskLevel : Nat
  costMin : ℚ
  costMax : ℚ
  conditions : List String
deriving Repr, DecidableEq

/-- Modelled from the spec: a `MAPS_TO_CASE_TYPE` edge with its
`relevance_score`. -/
structure CaseTypeEdge where
  sectionId : String
  caseTypeId : String
  relevance : ℚ
deriving Repr, DecidableEq

/-- Modelled from the spec: a `REQUIRES_EVIDENCE` edge with its `necessity`
ordinal and `how_it_proves` text. -/
structure EvidenceEdge where
  sectionId : String
  evidenceId : String
  necessity : Nat
  howItProves : String
deriving Repr, DecidableEq

/-- Modelled from the spec: a `LEADS_TO_OUTCOME` edge carrying
`probability_pct`. -/
structure OutcomeEdge where
  actionId : String
  outcomeId : String
  probabilityPct : ℚ
deriving Repr, DecidableEq

/-- The probability contributed by one `LEADS_TO_OUTCOME` edge, converted
from percent at the boundary and bounded to [0,1]. -/
def OutcomeEdge.p (e : OutcomeEdge) : ℚ := clamp01 (e.probabilityPct / 100)

/-- Modelled from the spec: the Graph Store Adapter's view of the property
graph.  `searchByText` is the external full-text capability, returning
`(sectionId, matchScore)` pairs for a query. -/
structure GraphStore where
  sections : List LegalSection
  searchByText : String → List (String × ℚ)
  actionEdges : List ActionEdge
  caseTypeEdges : List CaseTypeEdge
  evidenceEdges : List EvidenceEdge
  outcomeEdges : List OutcomeEdge

/-- A scored match produced by the Section Matcher. -/
structure ScoredMatch where
  sectionId : String
  sectionNumber : Nat
  severityLevel : Nat
  relevance : ℚ
deriving Repr, DecidableEq

/-- Modelled from the spec (§4.2): a section applies if its jurisdiction set
contains "All India" or the requested state. -/
def jurisdictionOk (sec : LegalSection) (state : String) : Bool :=
  sec.jurisdictions.contains "All India" || sec.jurisdictions.contains state

/-- Modelled from the spec (§4.2): category filter — a section passes when no
category was requested or its category matches. -/
def categoryOk (sec : LegalSection) (category : Option String) : Bool :=
  match category with
  | some c => sec.category == c
  | none => true

/-- Modelled from the spec (§4.2, §9): the documented scoring constants —
text-match weight 4/5, exactness bonus 1/10 each for a jurisdiction listing
the exact requested state and for an exact category match. -/
def matchScore (textScore : ℚ) (sec : LegalSection) (state : String)
    (category : Option String) : ℚ :=
  let jb : ℚ := if sec.jurisdictions.contains state then 1/10 else 0
  let cb : ℚ := if category == some sec.category then 1/10 else 0
  clamp01 (4/5 * clamp01 textScore + jb + cb)

/-- Modelled from the spec (§4.2): ranking order — score descending, ties by
severity level descending, then section number ascending, for determinism. -/
def matchBefore (a b : ScoredMatch) : Bool :=
  if a.relevance > b.relevance then true
  else if b.relevance > a.relevance then false
  else if a.severityLevel > b.severityLevel then true
  else if b.severityLevel > a.severityLevel then false
  else a.sectionNumber ≤ b.sectionNumber

/-- Insertion step of the deterministic sort on scored matches. -/
def insertMatch (x : ScoredMatch) : List ScoredMatch → List ScoredMatch
  | [] => [x]
  | y :: ys => if matchBefore x y then x :: y :: ys else y :: insertMatch x ys

/-- Deterministic insertion sort on scored matches. -/
def sortMatches : List ScoredMatch → List ScoredMatch
  | [] => []
  | x :: xs => insertMatch x (sortMatches xs)

/-- Modelled from the spec (§4.2 Section Matcher): run `searchByText`, filter
by jurisdiction and category, score each survivor, and order the result. -/
def sectionMatch (g : GraphStore) (desc : String) (state : String)
    (category : Option String) : List ScoredMatch :=
  let raw := g.searchByText desc
  let withSecs := raw.filterMap fun pr =>
    (g.sections.find? (·.sectionId == pr.1)).map fun s => (s, pr.2)
  let filtered := withSecs.filter fun pr =>
    jurisdictionOk pr.1 state && categoryOk pr.1 category
  sortMatches (filtered.map fun pr =>
    { sectionId := pr.1.sectionId
      sectionNumber := pr.1.sectionNumber
      severityLevel := pr.1.severityLevel
      relevance := matchScore pr.2 pr.1 state category })

/-- A deduplicated case type produced by the Context Aggregator, with
provenance. -/
structure AggCaseType where
  caseTypeId : String
  relevance : ℚ
  sections : List String
deriving Repr, DecidableEq

/-- A deduplicated evidence item produced by the Context Aggregator, with
provenance. -/
structure AggEvidence where
  evidenceId : String
  necessity : Nat
  sections : List String
deriving Repr, DecidableEq

/-- Modelled from the spec (§4.3): deduplicate case types across matched
sections by id, keeping the maximum relevance seen and the contributing
sections as provenance. -/
def aggregateCaseTypes (g : GraphStore) (ms : List ScoredMatch) :
    List AggCaseType :=
  let es := g.caseTypeEdges.filter fun e =>
    ms.any (·.sectionId == e.sectionId)
  es.foldl (fun acc e =>
    match acc.find? (·.caseTypeId == e.caseTypeId) with
    | some _ => acc.map fun a =>
        if a.caseTypeId == e.caseTypeId then
          { a with relevance := max a.relevance e.relevance
                   sections := a.sections ++ [e.sectionId] }
        else a
    | none => acc ++ [{ caseTypeId := e.caseTypeId, relevance := e.relevance
                        sections := [e.sectionId] }]) []

/-- Modelled from the spec (§4.3): deduplicate evidence across matched
sections by id, keeping the maximum necessity seen, with provenance. -/
def aggregateEvidence (g : GraphStore) (ms : List ScoredMatch) :
    List AggEvidence :=
  let es := g.evidenceEdges.filter fun e =>
    ms.any (·.sectionId == e.sectionId)
  es.foldl (fun acc e =>
    match acc.find? (·.evidenceId == e.evidenceId) with
    | some _ => acc.map fun a =>
        if a.evidenceId == e.evidenceId then
          { a with necessity := max a.necessity e.necessity
                   sections := a.sections ++ [e.sectionId] }
        else a
    | none => acc ++ [{ evidenceId := e.evidenceId, necessity := e.necessity
                        sections := [e.sectionId] }]) []

/-- An entry of the final action plan. -/
structure PlannedAction where
  actionId : String
  actionName : String
  seqHint : Nat
  riskLevel : Nat
  costMin : ℚ
  costMax : ℚ
  conditions : List String
  sequence : Nat
deriving Repr, DecidableEq

/-- Modelled from the spec (§4.4): merge duplicate actions by id — minimum
`cost_min`, maximum `cost_max`, union of conditions; the first-seen sequence
hint and risk level are kept. -/
def mergeActions (es : List ActionEdge) : List ActionEdge :=
  es.foldl (fun acc e =>
    match acc.find? (·.actionId == e.actionId) with
    | some _ => acc.map fun a =>
        if a.actionId == e.actionId then
          { a with costMin := min a.costMin e.costMin
                   costMax := max a.costMax e.costMax
                   conditions := a.conditions ++
                     e.conditions.filter (fun c => !a.conditions.contains c) }
        else a
    | none => acc ++ [e]) []

/-- Modelled from the spec (§4.4): plan order — `sequence` hint ascending,
then risk level ascending as tie-break. -/
def actionBefore (a b : ActionEdge) : Bool :=
  if a.seqHint < b.seqHint then true
  else if b.seqHint < a.seqHint then false
  else a.riskLevel ≤ b.riskLevel

/-- Insertion step of the deterministic sort on merged actions. -/
def insertAction (x : ActionEdge) : List ActionEdge → List ActionEdge
  | [] => [x]
  | y :: ys => if actionBefore x y then x :: y :: ys else y :: insertAction x ys

/-- Deterministic insertion sort on merged actions. -/
def sortActions : List ActionEdge → List ActionEdge
  | [] => []
  | x :: xs => insertAction x (sortActions xs)

/-- Modelled from the spec (§4.4 Action Planner): collect the `HAS_ACTION`
edges of the matched sections, merge duplicates, order, and assign a final
monotonically increasing `sequence` field 1..N. -/
def planActions (g : GraphStore) (ms : List ScoredMatch) :
    List PlannedAction :=
  let es := g.actionEdges.filter fun e =>
    ms.any (·.sectionId == e.sectionId)
  (sortActions (mergeActions es)).enum.map fun pr =>
    { actionId := pr.2.actionId, actionName := pr.2.actionName
      seqHint := pr.2.seqHint, riskLevel := pr.2.riskLevel
      costMin := pr.2.costMin, costMax := pr.2.costMax
      conditions := pr.2.conditions, sequence := pr.1 + 1 }

/-- An aggregated outcome produced by the Outcome Synthesizer. -/
structure SynthOutcome where
  outcomeId : String
  probability : ℚ
  influencingFactors : List String
deriving Repr, DecidableEq

/-- Modelled from the spec (§4.5): the `LEADS_TO_OUTCOME` edges contributed
by the planned actions. -/
def activeEdges (plan : List PlannedAction) (edges : List OutcomeEdge) :
    List OutcomeEdge :=
  edges.filter fun e => plan.any (·.actionId == e.actionId)

/-- The contributing edges for one outcome id. -/
def contribFor (plan : List PlannedAction) (edges : List OutcomeEdge)
    (oid : String) : List OutcomeEdge :=
  (activeEdges plan edges).filter fun e => e.outcomeId == oid

/-- Modelled from the spec (§4.5): the aggregated entry for one outcome —
probability `1 - Π(1 - p_i)` over the contributing edges, clamped to [0,1],
and the union of contributing action names as influencing factors. -/
def synthEntry (plan : List PlannedAction) (edges : List OutcomeEdge)
    (oid : String) : SynthOutcome :=
  { outcomeId := oid
    probability :=
      clamp01 (1 - ((contribFor plan edges oid).map fun e => 1 - e.p).prod)
    influencingFactors :=
      ((contribFor plan edges oid).filterMap fun e =>
        (plan.find? (·.actionId == e.actionId)).map (·.actionName)).dedup }

/-- Modelled from the spec (§4.5 Outcome Synthesizer): aggregate the planned
actions' outcome edges by outcome id; an outcome id appears exactly when at
least one planned action leads to it, so no synthetic zero-contribution
outcome is ever emitted. -/
def synthesize (plan : List PlannedAction) (edges : List OutcomeEdge) :
    List SynthOutcome :=
  (((activeEdges plan edges).map (·.outcomeId)).dedup).map
    (synthEntry plan edges)

/-- A step of the reasoning trace: monotonic index, stage type, description,
compact result summary. -/
structure ReasoningStep where
  step : Nat
  stageType : String
  description : String
  result : String
deriving Repr, DecidableEq

/-- Assign contiguous ascending step indices 1..N to stage records. -/
def indexSteps (stages : List (String × String × String)) : List ReasoningStep :=
  stages.enum.map fun pr =>
    { step := pr.1 + 1, stageType := pr.2.1, description := pr.2.2.1
      result := pr.2.2.2 }

/-- Modelled from the spec (§4.6 Reasoning Tracer): one step per major stage
invocation — match, aggregate, plan, synthesize — each with a description and
a compact count summary. -/
def buildTrace (nMatch nCase nEvid nPlan nSynth : Nat) : List ReasoningStep :=
  indexSteps
    [("match", "ranked candidate sections", toString nMatch ++ " sections"),
     ("aggregate", "collected case types and evidence",
      toString nCase ++ " case types, " ++ toString nEvid ++ " evidence items"),
     ("plan", "sequenced deduplicated actions", toString nPlan ++ " actions"),
     ("synthesize", "combined outcome probabilities", toString nSynth ++ " outcomes")]

/-- Modelled from the spec (§4.6, §9): the confidence score — 0 when nothing
matched, otherwise the normalized mean of the top match's relevance, the
fraction of stages with non-empty output, and an ambiguity penalty that
shrinks with the number of near-tied (within 1/20) top matches; the result is
clamped to [0,1].  The exact constants are the documented tunable choice the
spec's §9 calls for. -/
def confidenceScore (ms : List ScoredMatch) (cts : List AggCaseType)
    (evs : List AggEvidence) (plan : List PlannedAction)
    (outs : List SynthOutcome) : ℚ :=
  match ms with
  | [] => 0
  | top :: rest =>
    let stages : List Bool :=
      [true, !cts.isEmpty || !evs.isEmpty, !plan.isEmpty, !outs.isEmpty]
    let stageFrac : ℚ := (stages.count true : ℚ) / 4
    let nearTied := (rest.filter fun m => top.relevance - m.relevance < 1/20).length
    clamp01 ((top.relevance + stageFrac + 1 / (1 + (nearTied : ℚ))) / 3)

/-- Modelled from the spec (§7): the error taxonomy surfaced by `/analyze`. -/
inductive AnalysisError where
  | invalidInput
  | notFound
  | storeUnavailable
  | internalInconsistency
deriving Repr, DecidableEq

/-- The derived `AnalysisResult` record (§3), restricted to the modelled
fields. -/
structure AnalysisResult where
  case_description : String
  matched_sections : List ScoredMatch
  case_types : List AggCaseType
  evidence_checklist : List AggEvidence
  action_plan : List PlannedAction
  outcome_probabilities : List SynthOutcome
  reasoning_trace : List ReasoningStep
  confidence_score : ℚ
deriving Repr, DecidableEq

/-- Modelled from the spec (§2 control flow, §4.2 edge case): the whole
pipeline.  An empty `case_description` fails with `InvalidInput` before any
stage runs; otherwise matcher → aggregator / planner / synthesizer → tracer,
and a complete result is returned. -/
def runAnalysis (g : GraphStore) (case_description : String)
    (state : Option String) (category : Option String) :
    Except AnalysisError AnalysisResult :=
  if case_description = "" then .error .invalidInput
  else
    let st := state.getD "All India"
    let ms := sectionMatch g case_description st category
    let cts := aggregateCaseTypes g ms
    let evs := aggregateEvidence g ms
    let plan := planActions g ms
    let outs := synthesize plan g.outcomeEdges
    .ok { case_description := case_description
          matched_sections := ms
          case_types := cts
          evidence_checklist := evs
          action_plan := plan
          outcome_probabilities := outs
          reasoning_trace :=
            buildTrace ms.length cts.length evs.length plan.length outs.length
          confidence_score := confidenceScore ms cts evs plan outs }

/-- Render a list of already-rendered items. -/
def renderList (items : List String) : String :=
  "[" ++ String.intercalate "," items ++ "]"

/-- Serialize one scored match. -/
def renderMatch (m : ScoredMatch) : String :=
  "(" ++ m.sectionId ++ "," ++ toString m.sectionNumber ++ ","
      ++ toString m.severityLevel ++ "," ++ toString m.relevance ++ ")"

/-- Serialize one aggregated case type. -/
def renderCaseType (c : AggCaseType) : String :=
  "(" ++ c.caseTypeId ++ "," ++ toString c.relevance ++ ","
      ++ renderList c.sections ++ ")"

/-- Serialize one aggregated evidence item. -/
def renderEvidence (e : AggEvidence) : String :=
  "(" ++ e.evidenceId ++ "," ++ toString e.necessity ++ ","
      ++ renderList e.sections ++ ")"

/-- Serialize one planned action. -/
def renderAction (a : PlannedAction) : String :=
  "(" ++ a.actionId ++ "," ++ a.actionName ++ "," ++ toString a.seqHint ++ ","
      ++ toString a.riskLevel ++ "," ++ toString a.costMin ++ ","
      ++ toString a.costMax ++ "," ++ renderList a.conditions ++ ","
      ++ toString a.sequence ++ ")"

/-- Serialize one synthesized outcome. -/
def renderOutcome (o : SynthOutcome) : String :=
  "(" ++ o.outcomeId ++ "," ++ toString o.probability ++ ","
      ++ renderList o.influencingFactors ++ ")"

/-- Serialize one reasoning step. -/
def renderStep (s : ReasoningStep) : String :=
  "(" ++ toString s.step ++ "," ++ s.stageType ++ "," ++ s.description ++ ","
      ++ s.result ++ ")"

/-- The byte representation of an `AnalysisResult` sent over the wire: a
deterministic rendering of every field. -/
def serializeResult (r : AnalysisResult) : String :=
  r.case_description ++ ";"
    ++ renderList (r.matched_sections.map renderMatch) ++ ";"
    ++ renderList (r.case_types.map renderCaseType) ++ ";"
    ++ renderList (r.evidence_checklist.map renderEvidence) ++ ";"
    ++ renderList (r.action_plan.map renderAction) ++ ";"
    ++ renderList (r.outcome_probabilities.map renderOutcome) ++ ";"
    ++ renderList (r.reasoning_trace.map renderStep) ++ ";"
    ++ toString r.confidence_score

/-- A store with no sections, edges, or text-search hits. -/
def emptyStore : GraphStore :=
  { sections := [], searchByText := fun _ => [], actionEdges := []
    caseTypeEdges := [], evidenceEdges := [], outcomeEdges := [] }

/-- The result `runAnalysis` produces on `emptyStore` for a one-letter
description. -/
def emptyResult (d : String) : AnalysisResult :=
  { case_description := d, matched_sections := [], case_types := []
    evidence_checklist := [], action_plan := [], outcome_probabilities := []
    reasoning_trace := buildTrace 0 0 0 0 0, confidence_score := 0 }

/-- Two planned actions used to exercise the synthesizer. -/
def twoActionPlan : List PlannedAction :=
  [{ actionId := "A1", actionName := "file complaint", seqHint := 1
     riskLevel := 1, costMin := 0, costMax := 0, conditions := [], sequence := 1 },
   { actionId := "A2", actionName := "send legal notice", seqHint := 2
     riskLevel := 1, costMin := 0, costMax := 0, conditions := [], sequence := 2 }]

/-- Two outcome edges with probabilities 50% and 40% converging on one
outcome. -/
def convergentEdges : List OutcomeEdge :=
  [{ actionId := "A1", outcomeId := "O1", probabilityPct := 50 },
   { actionId := "A2", outcomeId := "O1", probabilityPct := 40 }]

/-! ## Helper lemmas -/

/-- `clamp01` never goes below 0. -/
theorem clamp01_nonneg (x : ℚ) : 0 ≤ clamp01 x := by
  unfold clamp01; split_ifs <;> linarith

/-- `clamp01` never exceeds 1. -/
theorem clamp01_le_one (x : ℚ) : clamp01 x ≤ 1 := by
  unfold clamp01; split_ifs <;> linarith

/-- The confidence score always lies in [0,1]. -/
theorem confidenceScore_bounds (ms : List ScoredMatch) (cts : List AggCaseType)
    (evs : List AggEvidence) (plan : List PlannedAction)
    (outs : List SynthOutcome) :
    0 ≤ confidenceScore ms cts evs plan outs ∧
      confidenceScore ms cts evs plan outs ≤ 1 := by
  cases ms with
  | nil => simp [confidenceScore]
  | cons top rest => exact ⟨clamp01_nonneg _, clamp01_le_one _⟩

/-- The reasoning trace's step indices are exactly 1..N. -/
theorem buildTrace_steps (a b c d e : Nat) :
    (buildTrace a b c d e).map (·.step) =
      List.range' 1 (buildTrace a b c d e).length := rfl

/-- With no matched sections the planner produces an empty plan. -/
theorem planActions_nil (g : GraphStore) : planActions g [] = [] := by
  simp [planActions, mergeActions, sortActions]

/-! ## Claim theorems -/

/-- C1 (counterexample): a 404 response whose JSON body is an object without
a `detail` field is rejected with message "HTTP 404" — the numeric status
code — not the HTTP status text "Not Found" that the claim requires when
`detail` is absent. -/
theorem apiFetch_missing_detail_counterexample :
    apiFetch { status := 404, statusText := "Not Found",
               jsonBody := some (.obj []) } = .rejected "HTTP 404" ∧
    "HTTP 404" ≠ "Not Found" := ⟨rfl, by decide⟩

/-- C1 (amended): on every non-2xx response `apiFetch` never resolves; its
error message is the body's `detail` field when that parses to a non-empty
string; the HTTP status text is used only when the body is not valid JSON
(and that text is non-empty); when the body parses to an object without a
`detail` field the message is `"HTTP "` followed by the numeric status
code. -/
theorem apiFetch_non2xx_rejects (res : HttpResponse) (h : res.ok = false) :
    (∀ v, apiFetch res ≠ .resolved v) ∧
    (∀ s, s ≠ "" → res.jsonBody.bind (Json.get · "detail") = some (.str s) →
      apiFetch res = .rejected s) ∧
    (res.jsonBody = none → res.statusText ≠ "" →
      apiFetch res = .rejected res.statusText) ∧
    (∀ fields, res.jsonBody = some (.obj fields) →
      (Json.obj fields).get "detail" = none →
      apiFetch res = .rejected ("HTTP " ++ toString res.status)) := by
  refine ⟨?_, ?_, ?_, ?_⟩
  · intro v
    cases hjb : res.jsonBody with
    | none =>
      simp only [apiFetch, h, hjb, Bool.false_eq_true, if_false]
      split <;> ((try split) <;> simp)
    | some j =>
      cases j <;> simp only [apiFetch, h, hjb, Bool.false_eq_true, if_false] <;>
        (try split) <;> (try split) <;> simp
  · intro s hs hd
    cases hjb : res.jsonBody with
    | none => rw [hjb] at hd; simp at hd
    | some j =>
      rw [hjb] at hd
      simp only [Option.some_bind] at hd
      simp only [apiFetch, h, hjb, Bool.false_eq_true, if_false]
      cases j with
      | obj fields => simp [hd, jsTruthy, hs, Json.jsToString]
      | null => simp [Json.get] at hd
      | bool b => simp [Json.get] at hd
      | num n => simp [Json.get] at hd
      | str s2 => simp [Json.get] at hd
      | arr xs => simp [Json.get] at hd
  · intro hjb hst
    simp [apiFetch, h, hjb, Json.get, jsTruthy, hst, Json.jsToString]
  · intro fields hjb hd
    simp [apiFetch, h, hjb, hd]

/-- C1 (witness): a concrete 503 with a `detail` body rejects with that
detail. -/
theorem apiFetch_non2xx_rejects_witness :
    apiFetch { status := 503, statusText := "Service Unavailable",
               jsonBody := some (.obj [("detail", .str "store unavailable")]) } =
      .rejected "store unavailable" :=
  (apiFetch_non2xx_rejects
    { status := 503, statusText := "Service Unavailable",
      jsonBody := some (.obj [("detail", .str "store unavailable")]) }
    (by decide)).2.1 "store unavailable" (by decide) rfl

/-- C2: every `analyzeCase` call posts to `/analyze` a body carrying exactly
the fields `case_description`, `state`, `category`, with `case_description`
equal to the first argument; when the state argument is omitted (undefined),
the body's `state` is `"All India"`. -/
theorem analyzeCase_request_shape (desc : String) (st cat : JsArg) :
    ((analyzeCase desc st cat).body.bind Json.keys) =
        some ["case_description", "state", "category"] ∧
    ((analyzeCase desc st cat).body.bind (Json.get · "case_description")) =
        some (.str desc) ∧
    (analyzeCase desc st cat).method = "POST" ∧
    (analyzeCase desc st cat).path = "/analyze" ∧
    (st = .undef →
      (analyzeCase desc st cat).body.bind (Json.get · "state") =
        some (.str "All India")) := by
  cases st <;> cases cat <;>
    simp [analyzeCase, stringifyFields, Json.keys, Json.get]

/-- C2 (witness): an omitted state yields `"All India"` in the body. -/
theorem analyzeCase_request_shape_witness :
    (analyzeCase "my case" .undef .undef).body.bind (Json.get · "state") =
      some (.str "All India") :=
  (analyzeCase_request_shape "my case" .undef .undef).2.2.2.2 rfl

/-- C3: in both hooks, `loading` is true after the pre-request phase and
false after completion whichever way the request settles; on resolution the
data field holds the result, on rejection `error` holds the error's
message. -/
theorem hook_loading_lifecycle (s : AnalyzeState) (t : GraphState)
    (o : Outcome) :
    (analyzeStart s).loading = true ∧
    (analyzeRun s o).1.loading = false ∧
    (∀ r, o = .success r → (analyzeRun s o).1.data = some r) ∧
    (∀ m, o = .failure m → (analyzeRun s o).1.error = some m) ∧
    (fetchGraphStart t).loading = true ∧
    (fetchGraphRun t o).1.loading = false ∧
    (∀ r, o = .success r → (fetchGraphRun t o).1.graphData = some r) ∧
    (∀ m, o = .failure m → (fetchGraphRun t o).1.error = some m) := by
  cases o <;>
    simp [analyzeStart, analyzeRun, analyzeFinish, fetchGraphStart,
      fetchGraphRun, fetchGraphFinish]

/-- C3 (witness): a concrete successful `analyze` run stores its result. -/
theorem hook_loading_lifecycle_witness :
    (analyzeRun { data := none, loading := false, error := none }
        (.success (.str "ok"))).1.data = some (.str "ok") :=
  (hook_loading_lifecycle { data := none, loading := false, error := none }
      { graphData := none, loading := false, error := none }
      (.success (.str "ok"))).2.2.1 (.str "ok") rfl

/-- C9: `analyze` is a total function of the request's outcome — it never
propagates an exception: on resolution it returns the result, on rejection
it returns `null` after recording the error's message. -/
theorem analyze_never_throws (s : AnalyzeState) :
    (∀ r, (analyzeRun s (.success r)).2 = some r) ∧
    (∀ m, (analyzeRun s (.failure m)).2 = none ∧
          (analyzeRun s (.failure m)).1.error = some m) := by
  simp [analyzeRun, analyzeFinish, analyzeStart]

/-- C10: a failing `analyze` call leaves `data` exactly as it was — an
earlier result stays visible next to the new error — and only `error` and
`loading` change on that path. -/
theorem analyze_failure_preserves_data (s : AnalyzeState) (m : String) :
    (analyzeRun s (.failure m)).1.data = s.data ∧
    (analyzeRun s (.failure m)).1.error = some m ∧
    (analyzeRun s (.failure m)).1.loading = false := by
  simp [analyzeRun, analyzeFinish, analyzeStart]

/-- C4: every outcome reached by at least two planned actions appears as a
single synthesized entry whose probability is `1 - Π(1 - p_i)` over the
contributing edges' probabilities, clamped to [0,1]; no outcome with zero
contributing actions is ever emitted; and the documented instance — actions
with probabilities 0.5 and 0.4 converging on one outcome — combines to
0.7. -/
theorem synthesize_combined_probability (plan : List PlannedAction)
    (edges : List OutcomeEdge) (oid : String)
    (h : 2 ≤ (contribFor plan edges oid).length) :
    ((synthesize plan edges).filter fun o => o.outcomeId == oid).length = 1 ∧
    (∀ o ∈ synthesize plan edges, o.outcomeId = oid →
      o.probability =
        clamp01 (1 - ((contribFor plan edges oid).map fun e => 1 - e.p).prod)) ∧
    (∀ o ∈ synthesize plan edges, ∃ e ∈ edges,
      plan.any (·.actionId == e.actionId) = true ∧ e.outcomeId = o.outcomeId) ∧
    synthesize twoActionPlan convergentEdges =
      [{ outcomeId := "O1", probability := 7/10,
         influencingFactors := ["file complaint", "send legal notice"] }] := by
  have hne : contribFor plan edges oid ≠ [] := by
    intro hc; rw [hc] at h; simp at h
  obtain ⟨e0, he0⟩ := List.exists_mem_of_ne_nil _ hne
  obtain ⟨he0A, he0oid⟩ := List.mem_filter.mp he0
  have he0eq : e0.outcomeId = oid := by simpa using he0oid
  have hmem : oid ∈ ((activeEdges plan edges).map (·.outcomeId)).dedup :=
    List.mem_dedup.mpr (List.mem_map.mpr ⟨e0, he0A, he0eq⟩)
  refine ⟨?_, ?_, ?_, ?_⟩
  · rw [synthesize, ← List.countP_eq_length_filter, List.countP_map]
    exact List.count_eq_one_of_mem (List.nodup_dedup _) hmem
  · intro o ho hoid
    simp only [synthesize] at ho
    obtain ⟨x, hx, hfx⟩ := List.mem_map.mp ho
    have hxo : x = oid := by rw [← hoid, ← hfx]; rfl
    subst hxo
    rw [← hfx]; rfl
  · intro o ho
    simp only [synthesize] at ho
    obtain ⟨x, hx, hfx⟩ := List.mem_map.mp ho
    have hxids := List.mem_dedup.mp hx
    obtain ⟨e, heA, heid⟩ := List.mem_map.mp hxids
    obtain ⟨heE, hep⟩ := List.mem_filter.mp heA
    exact ⟨e, heE, hep, by rw [heid, ← hfx]; rfl⟩
  · simp [synthesize, activeEdges, contribFor, synthEntry, twoActionPlan,
      convergentEdges, List.dedup, List.pwFilter, OutcomeEdge.p, clamp01,
      List.find?]
    norm_num

/-- C4 (witness): the two convergent 50%/40% edges produce exactly one entry
for their outcome. -/
theorem synthesize_combined_probability_witness :
    ((synthesize twoActionPlan convergentEdges).filter
      fun o => o.outcomeId == "O1").length = 1 :=
  (synthesize_combined_probability twoActionPlan convergentEdges "O1"
    (by decide)).1

/-- C5: the analysis pipeline is a function of the input triple and the
graph state — two runs on identical arguments produce equal results, and
their serialized byte representations coincide. -/
theorem runAnalysis_deterministic (g : GraphStore) (d : String)
    (s c : Option String) (r₁ r₂ : Except AnalysisError AnalysisResult)
    (h₁ : runAnalysis g d s c = r₁) (h₂ : runAnalysis g d s c = r₂) :
    r₁ = r₂ ∧ ∀ a₁ a₂, r₁ = .ok a₁ → r₂ = .ok a₂ →
      serializeResult a₁ = serializeResult a₂ := by
  subst h₁; subst h₂
  refine ⟨rfl, ?_⟩
  intro a₁ a₂ ha₁ ha₂
  rw [ha₁] at ha₂
  injection ha₂ with h3
  rw [h3]

/-- C5 (witness): two concrete identical runs agree. -/
theorem runAnalysis_deterministic_witness :
    runAnalysis emptyStore "w" none none = runAnalysis emptyStore "w" none none :=
  (runAnalysis_deterministic emptyStore "w" none none
    (runAnalysis emptyStore "w" none none)
    (runAnalysis emptyStore "w" none none) rfl rfl).1

/-- C6: an empty `case_description` fails with `InvalidInput` — no partial
result is produced, for any graph, state, or category. -/
theorem runAnalysis_empty_input_invalid (g : GraphStore)
    (s c : Option String) :
    runAnalysis g "" s c = .error .invalidInput := by
  simp [runAnalysis]

/-- C7: every successful analysis of a non-empty description has a
confidence score in [0,1] and reasoning-trace step indices that are exactly
the contiguous ascending sequence 1..N. -/
theorem runAnalysis_valid_confidence_trace (g : GraphStore) (d : String)
    (s c : Option String) (r : AnalysisResult) (hd : d ≠ "")
    (h : runAnalysis g d s c = .ok r) :
    0 ≤ r.confidence_score ∧ r.confidence_score ≤ 1 ∧
    r.reasoning_trace.map (·.step) = List.range' 1 r.reasoning_trace.length := by
  simp only [runAnalysis, if_neg hd] at h
  injection h with h'
  subst h'
  exact ⟨(confidenceScore_bounds _ _ _ _ _).1,
    (confidenceScore_bounds _ _ _ _ _).2, buildTrace_steps _ _ _ _ _⟩

/-- C7 (witness): the analysis of "q" on the empty store satisfies both
invariants. -/
theorem runAnalysis_valid_confidence_trace_witness :
    0 ≤ (emptyResult "q").confidence_score ∧
    (emptyResult "q").confidence_score ≤ 1 ∧
    (emptyResult "q").reasoning_trace.map (·.step) =
      List.range' 1 (emptyResult "q").reasoning_trace.length :=
  runAnalysis_valid_confidence_trace emptyStore "q" none none
    (emptyResult "q") (by decide) rfl

/-- C8: a valid non-empty description that matches no stored section still
succeeds, with empty matched sections, an empty action plan, and confidence
score 0. -/
theorem runAnalysis_no_match_empty (g : GraphStore) (d : String)
    (s c : Option String) (hd : d ≠ "")
    (hm : sectionMatch g d (s.getD "All India") c = []) :
    ∃ r, runAnalysis g d s c = .ok r ∧ r.matched_sections = [] ∧
      r.action_plan = [] ∧ r.confidence_score = 0 := by
  simp only [runAnalysis, if_neg hd, hm]
  exact ⟨_, rfl, rfl, planActions_nil g, rfl⟩

/-- C8 (witness): an unrelated description on the empty store. -/
theorem runAnalysis_no_match_empty_witness :
    ∃ r, runAnalysis emptyStore "unrelated" none none = .ok r ∧
      r.matched_sections = [] ∧ r.action_plan = [] ∧ r.confidence_score = 0 :=
  runAnalysis_no_match_empty emptyStore "unrelated" none none (by decide) rfl
